import Mathlib

/-!
Verification development for the bongo_cat_monitor repository.

Shallow embedding of the two source files:
  * src/bongo_cat_app/task.py  — Windows Task Scheduler wrapper (class Task)
  * src/bongo_cat_app/main.py  — application shell (class BongoCatApplication,
    main(), and the __main__ elevation guard)

External collaborators (the OS scheduler shell command, the config / engine /
tray modules, pyuac, argparse) are modelled as oracles: every call site takes
the collaborator behaviour as an explicit argument, so theorems quantify over
all collaborator behaviours.
-/

namespace BongoCat

/-- Result of one external command invocation: the fields of a Python
`subprocess.CompletedProcess` that task.py reads (task.py line 9 runs
`subprocess.run(["powershell", "-Command", cmd], capture_output=True, shell=True)`).
Since `capture_output=True` yields `bytes`, `stdout` and `stderr` are byte lists. -/
structure CmdResult where
  returncode : Int
  stdout : List Nat
  stderr : List Nat
deriving DecidableEq

/-- The operating system as seen through task.py's `run(cmd)` wrapper: a map from
command text to completed-process result.  Every method call takes its own
oracle argument, so different calls may observe different OS states. -/
abbrev Oracle := String → CmdResult

/-- The Python exceptions that code in task.py can raise. -/
inductive PyErr where
  | unicodeDecodeError
  | keyError (k : String)
  | indexError
  | valueError (msg : String)
deriving DecidableEq

/-- Strict UTF-8 decoding of a byte list into a code-point list, as performed by
Python `bytes.decode("utf-8")` (strict errors): rejects stray continuation
bytes, overlong encodings (leads 0xC0/0xC1, and short 3/4-byte forms),
surrogate code points, code points above 0x10FFFF, lead bytes above 0xF4, and
truncated sequences.  `none` corresponds to a raised UnicodeDecodeError. -/
def utf8DecodeCps : List Nat → Option (List Nat)
  | [] => some []
  | b0 :: rest =>
    if b0 < 128 then (utf8DecodeCps rest).map (fun t => b0 :: t)
    else if b0 < 194 then none
    else if b0 < 224 then
      match rest with
      | [] => none
      | b1 :: rest2 =>
        if 128 ≤ b1 ∧ b1 < 192 then
          (utf8DecodeCps rest2).map (fun t => ((b0 - 192) * 64 + (b1 - 128)) :: t)
        else none
    else if b0 < 240 then
      match rest with
      | b1 :: b2 :: rest3 =>
        if (128 ≤ b1 ∧ b1 < 192) ∧ (128 ≤ b2 ∧ b2 < 192) then
          (fun cp =>
            if cp < 2048 ∨ (55296 ≤ cp ∧ cp ≤ 57343) then none
            else (utf8DecodeCps rest3).map (fun t => cp :: t))
            ((b0 - 224) * 4096 + (b1 - 128) * 64 + (b2 - 128))
        else none
      | _ => none
    else if b0 < 245 then
      match rest with
      | b1 :: b2 :: b3 :: rest4 =>
        if (128 ≤ b1 ∧ b1 < 192) ∧ (128 ≤ b2 ∧ b2 < 192) ∧ (128 ≤ b3 ∧ b3 < 192) then
          (fun cp =>
            if cp < 65536 ∨ 1114111 < cp then none
            else (utf8DecodeCps rest4).map (fun t => cp :: t))
            ((b0 - 240) * 262144 + (b1 - 128) * 4096 + (b2 - 128) * 64 + (b3 - 128))
        else none
      | _ => none
    else none

/-- Decoded bytes as a character list (the Python `str` value). -/
def utf8DecodeChars (bs : List Nat) : Option (List Char) :=
  (utf8DecodeCps bs).map (fun cps => cps.map Char.ofNat)

/-- Finds the first occurrence of the (non-empty) separator in `l` and returns
the part before it and the part after it, like Python `s.split(sep, 1)` when a
separator occurs; `none` when the separator does not occur. -/
def splitFirst (sep : List Char) : List Char → Option (List Char × List Char)
  | [] => none
  | c :: rest =>
    if sep.isPrefixOf (c :: rest) then some ([], (c :: rest).drop sep.length)
    else (splitFirst sep rest).map (fun p => (c :: p.1, p.2))

/-- Fuelled splitting worker for `pySplit`. -/
def pySplitAux (sep : List Char) : Nat → List Char → List (List Char)
  | 0, l => [l]
  | fuel + 1, l =>
    match splitFirst sep l with
    | none => [l]
    | some (a, b) => a :: pySplitAux sep fuel b

/-- Python `s.split(sep)` for a non-empty separator: splits on every
left-to-right non-overlapping occurrence; the empty string splits to `[""]`.
The fuel `l.length + 1` is enough since every separator occurrence consumes at
least one character. -/
def pySplit (sep l : List Char) : List (List Char) :=
  pySplitAux sep (l.length + 1) l

/-- The whitespace characters stripped by Python `str.strip()` (ASCII part:
space, tab, newline, carriage return, vertical tab, form feed). -/
def pyIsSpaceChar (c : Char) : Bool :=
  c = ' ' || c = Char.ofNat 9 || c = Char.ofNat 10 || c = Char.ofNat 13 ||
  c = Char.ofNat 11 || c = Char.ofNat 12

/-- Python `str.strip()`: removes leading and trailing whitespace. -/
def pyStripChars (l : List Char) : List Char :=
  ((l.dropWhile pyIsSpaceChar).reverse.dropWhile pyIsSpaceChar).reverse

/-- Inserting into a Python dict: an existing key keeps its position and gets
the new value, a new key is appended. -/
def pyInsert (d : List (List Char × List Char)) (kv : List Char × List Char) :
    List (List Char × List Char) :=
  if d.any (fun p => p.1 == kv.1) then
    d.map (fun p => if p.1 == kv.1 then (p.1, kv.2) else p)
  else d ++ [kv]

/-- Python dict lookup `d[k]` as an Option (a miss raises KeyError at the call
site). -/
def pyDictGet (d : List (List Char × List Char)) (key : List Char) :
    Option (List Char) :=
  (d.find? (fun p => p.1 == key)).map (fun p => p.2)

/-- Python `el.split(":", 1)` as used in task.py line 45: the key is the part
before the first colon, the value the part after it; an element without a colon
makes the `[1]` subscript raise IndexError (`none` here). -/
def splitFirstColon (el : List Char) : Option (List Char × List Char) :=
  splitFirst [':'] el

/-- task.py line 45, the first dict comprehension: builds the raw attribute
dict from the non-empty lines, raising IndexError at the first line without a
colon. -/
def buildRawDict (acc : List (List Char × List Char)) :
    List (List Char) → Except PyErr (List (List Char × List Char))
  | [] => .ok acc
  | el :: rest =>
    match splitFirstColon el with
    | none => .error PyErr.indexError
    | some kv => buildRawDict (pyInsert acc kv) rest

/-- The key `"TaskPath"` looked up at task.py line 47. -/
def taskPathKey : List Char := "TaskPath".data

/-- task.py lines 45-47: decode the captured stdout bytes as UTF-8, split on
CRLF, drop empty lines, build the key:value dict (first colon splits), strip
keys and values, and look up `attrs["TaskPath"]`.  Errors are the Python
exceptions raised at the corresponding step. -/
def existsFolderParse (bs : List Nat) : Except PyErr (List Char) :=
  match utf8DecodeChars bs with
  | none => .error PyErr.unicodeDecodeError
  | some chars =>
    match buildRawDict [] ((pySplit ['\r', '\n'] chars).filter (fun el => !el.isEmpty)) with
    | .error e => .error e
    | .ok raw =>
      match pyDictGet (raw.foldl (fun acc kv => pyInsert acc (pyStripChars kv.1, pyStripChars kv.2)) []) taskPathKey with
      | none => .error (PyErr.keyError "TaskPath")
      | some v => .ok v

/-- The attribute state of a Task object (task.py class Task): the attributes
`self.name`, `self.task_exists`, `self.debug`, `self.folder`.  `folder` is an
Option since task.py assigns it either a parsed string or Python `None`. -/
structure TaskState where
  name : String
  task_exists : Bool
  debug : Bool
  folder : Option String
deriving DecidableEq

/-- Python `f"{self.folder}..."` formatting of the folder attribute:
`None` prints as the string "None". -/
def optStr : Option String → String
  | none => "None"
  | some s => s

/-- `self.print(text)` (task.py lines 30-37): emits the line only when
`self.debug` is set. -/
def printIf (st : TaskState) (text : String) : List String :=
  if st.debug then [text] else []

/-- The command text built at task.py line 42. -/
def getInfoCmd (name : String) : String :=
  "Get-ScheduledTaskInfo -TaskName \"" ++ name ++ "\""

/-- The command text built at task.py line 62. -/
def setCmd (name : String) (enabled : Bool) : String :=
  (if enabled then "Enable" else "Disable") ++ "-ScheduledTask -TaskName \"" ++ name ++ "\""

/-- Outcome of a call to `Task.exists` on a given object state: the returned
Bool (or the raised exception) together with the object state after the call.
On a raise, no attribute assignment has happened yet (the raise points at lines
45-47 all precede the assignment to `self.folder`), so the state is unchanged. -/
inductive ExistsResult where
  | ok (ret : Bool) (st : TaskState)
  | raised (e : PyErr) (st : TaskState)
deriving DecidableEq

/-- The post-call object state of an `ExistsResult`. -/
def ExistsResult.state : ExistsResult → TaskState
  | .ok _ st => st
  | .raised _ st => st

/-- `Task.exists` (task.py lines 39-51): queries
`Get-ScheduledTaskInfo -TaskName "{name}"`; on exit status 0 parses stdout and
assigns the stripped TaskPath to `self.folder`, returning True; on non-zero
exit status assigns `self.folder = None` and returns False. -/
def existsM (st : TaskState) (os : Oracle) : ExistsResult :=
  (fun info =>
    if info.returncode = 0 then
      match existsFolderParse info.stdout with
      | .error e => .raised e st
      | .ok f => .ok true { st with folder := some (String.mk f) }
    else .ok false { st with folder := none })
    (os (getInfoCmd st.name))

/-- Outcome of a call to `Task.set_enabled`: the returned Bool or raised
exception, plus the lines printed through `self.print`.  The method body
contains no attribute assignment, so it has no state output: the object state
is unchanged by construction, mirroring the source. -/
structure SetOut where
  result : Except PyErr Bool
  logs : List String

/-- Python `action.lower()` for the two possible actions. -/
def actionLower (enabled : Bool) : String :=
  if enabled then "enable" else "disable"

/-- The `if self.task_exists:` branch of `Task.set_enabled` (task.py lines
59-67).  The failure message at line 67 interpolates
`result.stderr.decode("utf-8")`, which is evaluated before `self.print` is
entered, so an undecodable stderr raises UnicodeDecodeError even when debug is
off. -/
def setEnabledExisting (st : TaskState) (os : Oracle) (enabled : Bool) : SetOut :=
  (fun logs0 result =>
    if result.returncode = 0 then
      { result := .ok true,
        logs := logs0 ++ printIf st ("Task " ++ actionLower enabled ++ "d: " ++ optStr st.folder ++ st.name) }
    else
      match utf8DecodeChars result.stderr with
      | none => { result := .error PyErr.unicodeDecodeError, logs := logs0 }
      | some errChars =>
        { result := .ok false,
          logs := logs0 ++ printIf st ("Failed to " ++ actionLower enabled ++ " task: " ++ optStr st.folder ++ st.name ++ ". Error: " ++ String.mk errChars) })
    (printIf st ((if enabled then "Enable" else "Disable") ++ " task: " ++ optStr st.folder ++ st.name))
    (os (setCmd st.name enabled))

/-- The `else` branch of `Task.set_enabled` (task.py lines 68-70): the task
does not exist, log and return False. -/
def setEnabledMissing (st : TaskState) (enabled : Bool) : SetOut :=
  { result := .ok false,
    logs := printIf st ("Task does not exist: " ++ optStr st.folder ++ st.name ++ ". Cannot " ++ actionLower enabled ++ ".") }

/-- `Task.set_enabled` (task.py lines 53-70). -/
def setEnabled (st : TaskState) (os : Oracle) (enabled : Bool) : SetOut :=
  if st.task_exists then setEnabledExisting st os enabled
  else setEnabledMissing st enabled

/-- Outcome of `Task.__init__`: either a constructed object state or a raised
exception (in which case no object is obtained). -/
inductive InitResult where
  | ok (st : TaskState)
  | raised (e : PyErr)
deriving DecidableEq

/-- The attribute state right after `self.name = name` (task.py line 21), with
placeholders for the attributes not yet assigned (none of them is read before
being assigned). -/
def initState (name : String) : TaskState :=
  { name := name, task_exists := false, debug := false, folder := none }

/-- `Task.__init__` (task.py lines 14-28): assigns `self.name`, runs
`self.task_exists = self.exists()` (which also assigns `self.folder`), raises
ValueError when the task does not exist, sets `self.debug = False`, and finally
runs `self.__dict__.update(kwargs)`, modelled as an arbitrary state update
function `kw` applied last (construction with no keyword arguments corresponds
to `kw = id`). -/
def taskInit (name : String) (kw : TaskState → TaskState) (os : Oracle) : InitResult :=
  match existsM (initState name) os with
  | .raised e _ => .raised e
  | .ok b st1 =>
    if b then .ok (kw { st1 with task_exists := true, debug := false })
    else .raised (PyErr.valueError ("Task \x27" ++ name ++ "\x27 does not exist!"))

/-- ASCII text as a byte list, for building concrete command outputs. -/
def asciiBytes (s : String) : List Nat :=
  s.data.map Char.toNat

/-!
Embedding of src/bongo_cat_app/main.py.

The collaborator modules (config.py, engine.py, tray.py, pyuac, argparse,
version.py) are not part of the two source files; each call into them is
modelled by an outcome field of a world record, and the configured VERSION
string is a parameter of the definitions.
-/

/-- An arbitrary Python exception raised by a collaborator call
(anything caught by `except Exception as e`). -/
structure PyExn where
  msg : String
deriving DecidableEq

/-- Outcome of one collaborator call made inside the `try` block of
`BongoCatApplication.run` (main.py lines 82-109): it returns normally, raises
an exception, or raises KeyboardInterrupt. -/
inductive CallOut where
  | ok
  | exn (e : PyExn)
  | kbInt
deriving DecidableEq

/-- The three components built by `initialize_components`
(main.py lines 39-69). -/
inductive AppComponent where
  | configStore
  | engine
  | tray
deriving DecidableEq

/-- The three guarded steps of `BongoCatApplication.shutdown`
(main.py lines 123-143). -/
inductive SStep where
  | engineStop
  | trayStop
  | tkCleanup
deriving DecidableEq

/-- One executed shutdown step: it either completed or raised an exception
that the step's own `except` clause caught. -/
inductive SEvent where
  | stepOk (s : SStep)
  | stepFailed (s : SStep) (e : PyExn)
deriving DecidableEq

/-- The step an event belongs to. -/
def SEvent.step : SEvent → SStep
  | .stepOk s => s
  | .stepFailed s _ => s

/-- How the Python process (or a frame of it) terminates:
`osExit` is `os._exit(code)`, `sysExit` is an uncaught `SystemExit(code)`
(raised by `sys.exit` or argparse), `returnValue` is an ordinary Python return
value not yet turned into a process exit, and `fallOff` is the script running
off its end (process exit status 0). -/
inductive ProcTerm where
  | osExit (code : Int)
  | sysExit (code : Int)
  | returnValue (code : Int)
  | fallOff
deriving DecidableEq

/-- The state `shutdown` runs against: which of `self.engine`, `self.tray`,
`self.tk_root` are set (non-None), and whether each stop call raises. -/
structure ShutdownCtx where
  hasEngine : Bool
  hasTray : Bool
  hasTk : Bool
  engineStopExn : Option PyExn
  trayStopExn : Option PyExn
  tkExn : Option PyExn
deriving DecidableEq

/-- One `if <attr>: try: ... except Exception as e: print(...)` step of
`shutdown`: skipped when the attribute is unset; otherwise executed, with any
exception caught by the step's own handler so that execution continues. -/
def guardStep (has : Bool) (s : SStep) (exn : Option PyExn) : List SEvent :=
  if has then
    match exn with
    | none => [SEvent.stepOk s]
    | some e => [SEvent.stepFailed s e]
  else []

/-- `BongoCatApplication.shutdown` (main.py lines 117-158): sets
`self.running = False`, then runs the three independently guarded steps in
order (stop engine, stop tray, clean up the tkinter root), and finally sleeps
half a second and calls `os._exit(0)`.  `time.sleep` and `os._exit` are
modelled as non-raising, so the `sys.exit(1)` fallback of line 158 is
unreachable and every call terminates the process with exit code 0. -/
def shutdown (c : ShutdownCtx) : List SEvent × ProcTerm :=
  (guardStep c.hasEngine SStep.engineStop c.engineStopExn ++
   guardStep c.hasTray SStep.trayStop c.trayStopExn ++
   guardStep c.hasTk SStep.tkCleanup c.tkExn,
   ProcTerm.osExit 0)

/-- The steps `shutdown` attempts, determined by which attributes are set and
independent of which steps raise. -/
def attemptedSteps (he ht hk : Bool) : List SStep :=
  (if he then [SStep.engineStop] else []) ++
  (if ht then [SStep.trayStop] else []) ++
  (if hk then [SStep.tkCleanup] else [])

/-- The two signals handled at main.py lines 31-32. -/
inductive Sig where
  | sigint
  | sigterm
deriving DecidableEq

/-- A reference to an installed handler function. -/
inductive HandlerRef where
  | appSignalHandler
deriving DecidableEq

/-- `BongoCatApplication.__init__` lines 31-32 install `self.signal_handler`
for both SIGINT and SIGTERM. -/
def installedHandlers : Sig → HandlerRef :=
  fun _ => HandlerRef.appSignalHandler

/-- What a handler invocation does: the line it prints and the shutdown run it
performs. -/
structure HandlerOut where
  printedLine : String
  events : List SEvent
  term : ProcTerm

/-- `BongoCatApplication.signal_handler` (main.py lines 34-37): prints a notice
and calls `self.shutdown()`. -/
def runHandlerRef : HandlerRef → ShutdownCtx → HandlerOut
  | HandlerRef.appSignalHandler, c =>
    { printedLine := "\n🛑 Shutting down gracefully...",
      events := (shutdown c).1,
      term := (shutdown c).2 }

/-- The collaborator behaviour observed during one `BongoCatApplication.run`:
outcomes of the five initialization steps (main.py lines 44-63), of the two
calls in the `try` body (lines 85 and 103), whether a tkinter root exists at
shutdown time, and the outcomes of the three shutdown stop calls. -/
structure RunWorld where
  configExn : Option PyExn
  engineExn : Option PyExn
  trayExn : Option PyExn
  setTrayRefExn : Option PyExn
  addCallbackExn : Option PyExn
  startDetachedOut : CallOut
  startMonitoringOut : CallOut
  hasTk : Bool
  engineStopExn : Option PyExn
  trayStopExn : Option PyExn
  tkExn : Option PyExn
deriving DecidableEq

/-- `initialize_components` (main.py lines 39-69): runs the five steps in
order inside one `try`; the first exception is caught, an error line printed,
and False returned.  Returns the success flag and the components constructed
before the failure point. -/
def initComponents (w : RunWorld) : Bool × List AppComponent :=
  match w.configExn with
  | some _ => (false, [])
  | none =>
    match w.engineExn with
    | some _ => (false, [AppComponent.configStore])
    | none =>
      match w.trayExn with
      | some _ => (false, [AppComponent.configStore, AppComponent.engine])
      | none =>
        match w.setTrayRefExn with
        | some _ => (false, [AppComponent.configStore, AppComponent.engine, AppComponent.tray])
        | none =>
          match w.addCallbackExn with
          | some _ => (false, [AppComponent.configStore, AppComponent.engine, AppComponent.tray])
          | none => (true, [AppComponent.configStore, AppComponent.engine, AppComponent.tray])

/-- How the `try` body of `run` ends: `tray.start_detached()` then
`engine.start_monitoring()`; a KeyboardInterrupt is caught at line 105, any
other exception at line 107. -/
inductive BodyEnd where
  | completed
  | interrupted
  | raised (e : PyExn)
deriving DecidableEq

/-- The end state of the `try` body of `run` (main.py lines 82-104). -/
def bodyResult (w : RunWorld) : BodyEnd :=
  match w.startDetachedOut with
  | CallOut.ok =>
    match w.startMonitoringOut with
    | CallOut.ok => BodyEnd.completed
    | CallOut.exn e => BodyEnd.raised e
    | CallOut.kbInt => BodyEnd.interrupted
  | CallOut.exn e => BodyEnd.raised e
  | CallOut.kbInt => BodyEnd.interrupted

/-- The shutdown context reached from the `finally` block of `run`: at that
point initialization has succeeded, so `self.engine` and `self.tray` are set. -/
def shutdownCtxOf (w : RunWorld) : ShutdownCtx :=
  { hasEngine := true, hasTray := true, hasTk := w.hasTk,
    engineStopExn := w.engineStopExn, trayStopExn := w.trayStopExn, tkExn := w.tkExn }

/-- Observable outcome of `BongoCatApplication.run` (main.py lines 71-113):
whether initialization succeeded, how the `try` body ended, the return value
pending when the `finally` block starts (the `return 1` of the `except` branch
at line 109; the `return 0` of line 113 sits after the try statement and is
never reached), the shutdown steps executed, and the termination. -/
structure RunOut where
  initOk : Bool
  bodyEnd : Option BodyEnd
  pendingReturn : Option Int
  shutdownEvents : List SEvent
  term : ProcTerm

/-- `BongoCatApplication.run`: on initialization failure it returns 1 at line
78 (no shutdown).  Otherwise the `try`/`except`/`finally` runs: whatever the
body outcome, the `finally` block calls `shutdown()`, which terminates the
process via `os._exit(0)`, discarding any pending `return 1` from the `except`
branch. -/
def appRun (w : RunWorld) : RunOut :=
  if (initComponents w).1 = false then
    { initOk := false, bodyEnd := none, pendingReturn := none,
      shutdownEvents := [], term := ProcTerm.returnValue 1 }
  else
    (fun b s =>
      { initOk := true, bodyEnd := some b,
        pendingReturn := (match b with | BodyEnd.raised _ => some 1 | _ => none),
        shutdownEvents := s.1, term := s.2 })
      (bodyResult w) (shutdown (shutdownCtxOf w))

/-- What argument parsing does: either the program proceeds, or argparse
terminates the process by raising SystemExit. -/
inductive ParseOut where
  | proceed
  | exitWith (code : Int) (printed : String)
deriving DecidableEq

/-- The string printed by the `--version` action (main.py lines 165-166). -/
def versionText (version : String) : String :=
  "Bongo Cat Typing Monitor v" ++ version

/-- Models `argparse.parse_args` for the parser built at main.py lines 164-168,
whose only declared option is `--version`: encountering `--version` prints the
version string and raises SystemExit(0); the automatically added `-h`/`--help`
prints help and exits 0; any other argument is unrecognized and argparse
errors out with SystemExit(2). -/
def parseArgs (version : String) : List String → ParseOut
  | [] => ParseOut.proceed
  | a :: _ =>
    if a = "--version" then ParseOut.exitWith 0 (versionText version)
    else if a = "-h" ∨ a = "--help" then ParseOut.exitWith 0 "usage: Bongo Cat Typing Monitor"
    else ParseOut.exitWith 2 "usage error: unrecognized arguments"

/-- Observable outcome of `main()` (main.py lines 161-173): what argparse
printed, which components were constructed, the run outcome when the
application ran, and the termination of the `main` frame. -/
structure MainOut where
  printed : List String
  constructed : List AppComponent
  runOut : Option RunOut
  term : ProcTerm

/-- `main()` (main.py lines 161-173): parses the arguments; when argparse
terminates, no `BongoCatApplication` and no component is ever constructed;
otherwise the application object is created and `app.run()` is returned. -/
def mainFun (version : String) (w : RunWorld) (argv : List String) : MainOut :=
  match parseArgs version argv with
  | ParseOut.exitWith code out =>
    { printed := [out], constructed := [], runOut := none, term := ProcTerm.sysExit code }
  | ParseOut.proceed =>
    (fun r =>
      { printed := [], constructed := (initComponents w).2,
        runOut := some r, term := r.term })
      (appRun w)

/-- `sys.exit(main())` at main.py line 180: a plain return value from `main`
becomes a SystemExit with that code; a termination that already ended the
process passes through. -/
def wrapSysExit : ProcTerm → ProcTerm
  | ProcTerm.returnValue n => ProcTerm.sysExit n
  | t => t

/-- Observable outcome of the `__main__` guard (main.py lines 175-180). -/
structure LaunchOut where
  relaunchedElevated : Bool
  mainInvoked : Bool
  mainOut : Option MainOut
  term : ProcTerm

/-- The `__main__` guard (main.py lines 175-180): without admin rights the
process prints a notice, calls `pyuac.runAsAdmin(wait=False)` to relaunch
itself elevated, and falls off the end of the script (exit status 0) without
ever invoking `main()`; with admin rights it runs `sys.exit(main())`. -/
def launch (isAdmin : Bool) (version : String) (w : RunWorld) (argv : List String) : LaunchOut :=
  if isAdmin then
    (fun m =>
      { relaunchedElevated := false, mainInvoked := true,
        mainOut := some m, term := wrapSysExit m.term })
      (mainFun version w argv)
  else
    { relaunchedElevated := true, mainInvoked := false,
      mainOut := none, term := ProcTerm.fallOff }

/-- The process exit status a termination produces at top level. -/
def exitCode : ProcTerm → Int
  | ProcTerm.osExit n => n
  | ProcTerm.sysExit n => n
  | ProcTerm.returnValue n => n
  | ProcTerm.fallOff => 0

/-!
Concrete inputs used by counterexamples and witnesses.
-/

/-- A Task object state for an existing task, debug off. -/
def taskOkState : TaskState :=
  { name := "BongoCat", task_exists := true, debug := false, folder := some "\\" }

/-- A Task object state whose folder holds a previously parsed value. -/
def taskStOld : TaskState :=
  { name := "BongoCat", task_exists := true, debug := true, folder := some "OLD" }

/-- A Task object state with no folder recorded yet. -/
def taskStBase : TaskState :=
  { name := "BongoCat", task_exists := true, debug := false, folder := none }

/-- An OS in which every scheduler command succeeds and the query output is a
well-formed TaskPath listing. -/
def osSuccess : Oracle :=
  fun _ => { returncode := 0, stdout := asciiBytes "TaskPath : \\\r\n", stderr := [] }

/-- An OS in which every scheduler command fails with status 1 and empty
output. -/
def osMissing : Oracle :=
  fun _ => { returncode := 1, stdout := [], stderr := [] }

/-- An OS in which the command fails and writes a byte that is not valid UTF-8
(0xFF) to stderr. -/
def osFailBadStderr : Oracle :=
  fun _ => { returncode := 1, stdout := [], stderr := [255] }

/-- An OS whose query succeeds but whose output lines carry no TaskPath key. -/
def osExistsNoTaskPath : Oracle :=
  fun _ => { returncode := 0, stdout := asciiBytes "TaskName : BongoCat\r\nLastRunTime : 1\r\n", stderr := [] }

/-- An OS whose query succeeds but whose output line contains no colon. -/
def osExistsNoColon : Oracle :=
  fun _ => { returncode := 0, stdout := asciiBytes "NoColonLine", stderr := [] }

/-- A run in which every collaborator call succeeds. -/
def allOkWorld : RunWorld :=
  { configExn := none, engineExn := none, trayExn := none,
    setTrayRefExn := none, addCallbackExn := none,
    startDetachedOut := CallOut.ok, startMonitoringOut := CallOut.ok,
    hasTk := true, engineStopExn := none, trayStopExn := none, tkExn := none }

/-- A run in which initialization succeeds and `engine.start_monitoring()`
raises a runtime exception. -/
def runtimeErrorWorld : RunWorld :=
  { configExn := none, engineExn := none, trayExn := none,
    setTrayRefExn := none, addCallbackExn := none,
    startDetachedOut := CallOut.ok, startMonitoringOut := CallOut.exn { msg := "runtime boom" },
    hasTk := false, engineStopExn := none, trayStopExn := none, tkExn := none }

/-!
Helper lemmas shared by several claim theorems.
-/

/-- A call to `Task.exists` never changes the `name`, `task_exists` or `debug`
attributes, whatever it returns or raises: its only assignment target is
`self.folder`. -/
lemma existsM_preserves_fields (st : TaskState) (os : Oracle) :
    (existsM st os).state.name = st.name ∧
    (existsM st os).state.task_exists = st.task_exists ∧
    (existsM st os).state.debug = st.debug := by
  unfold existsM
  by_cases h : (os (getInfoCmd st.name)).returncode = 0
  · simp only [h, if_true]
    cases existsFolderParse (os (getInfoCmd st.name)).stdout <;>
      exact ⟨rfl, rfl, rfl⟩
  · simp only [h, if_false]
    exact ⟨rfl, rfl, rfl⟩

/-!
Claim theorems.
-/

/-- C3: for every task name for which the scheduler query fails (non-zero exit
status, which is how an absent task presents), constructing a Task raises
ValueError inside `__init__`, before any method can be called on the handle —
whatever keyword-argument update would have been applied afterwards. -/
theorem taskInit_missing_task_raises (name : String) (kw : TaskState → TaskState)
    (os : Oracle) (h : (os (getInfoCmd name)).returncode ≠ 0) :
    taskInit name kw os =
      InitResult.raised (PyErr.valueError ("Task \x27" ++ name ++ "\x27 does not exist!")) := by
  unfold taskInit existsM initState
  simp [h]

/-- Witness for C3: the concrete task name "Ghost" against an OS whose query
exits with status 1. -/
theorem taskInit_missing_task_raises_witness :
    taskInit "Ghost" id osMissing =
      InitResult.raised (PyErr.valueError ("Task \x27" ++ "Ghost" ++ "\x27 does not exist!")) :=
  taskInit_missing_task_raises "Ghost" id osMissing (by decide)

/-- C2 counterexample: `set_enabled` CAN raise on a command failure.  On an
existing task, when the OS command exits with status 1 and writes the byte
0xFF (not valid UTF-8) to stderr, the failure branch evaluates
`result.stderr.decode("utf-8")` while building the message — even with debug
off — and raises UnicodeDecodeError instead of returning False. -/
theorem setEnabled_raises_on_undecodable_stderr :
    taskOkState.task_exists = true ∧
    (osFailBadStderr (setCmd taskOkState.name false)).returncode ≠ 0 ∧
    (setEnabled taskOkState osFailBadStderr false).result =
      Except.error PyErr.unicodeDecodeError :=
  ⟨rfl, by decide, rfl⟩

/-- C2 amended: on an existing task, `set_enabled(True)` then
`set_enabled(False)` both return True when the underlying OS commands succeed
(exit status 0); the call reports success or failure only by its boolean
return value and never raises when the command succeeds or when a failed
command's stderr is valid UTF-8 (an invalid-UTF-8 stderr of a failed command
raises UnicodeDecodeError); and nothing is logged unless debug mode is set. -/
theorem setEnabled_contract (st : TaskState) (os1 os2 : Oracle)
    (hex : st.task_exists = true) :
    ((os1 (setCmd st.name true)).returncode = 0 →
        (setEnabled st os1 true).result = Except.ok true) ∧
    ((os2 (setCmd st.name false)).returncode = 0 →
        (setEnabled st os2 false).result = Except.ok true) ∧
    (∀ os3 en, (os3 (setCmd st.name en)).returncode = 0 ∨
        (utf8DecodeChars (os3 (setCmd st.name en)).stderr).isSome = true →
        ∃ b, (setEnabled st os3 en).result = Except.ok b) ∧
    (st.debug = false → ∀ os3 en, (setEnabled st os3 en).logs = []) := by
  refine ⟨?_, ?_, ?_, ?_⟩
  · intro h
    simp [setEnabled, hex, setEnabledExisting, h]
  · intro h
    simp [setEnabled, hex, setEnabledExisting, h]
  · intro os3 en h
    by_cases h0 : (os3 (setCmd st.name en)).returncode = 0
    · exact ⟨true, by simp [setEnabled, hex, setEnabledExisting, h0]⟩
    · rcases h with h | h
      · exact absurd h h0
      · rcases Option.isSome_iff_exists.mp h with ⟨cs, hcs⟩
        exact ⟨false, by simp [setEnabled, hex, setEnabledExisting, h0, hcs]⟩
  · intro hdbg os3 en
    by_cases h0 : (os3 (setCmd st.name en)).returncode = 0
    · simp [setEnabled, hex, setEnabledExisting, h0, printIf, hdbg]
    · cases hcs : utf8DecodeChars (os3 (setCmd st.name en)).stderr <;>
        simp [setEnabled, hex, setEnabledExisting, h0, hcs, printIf, hdbg]

/-- Witness for C2 amended: on a concrete existing task, against an OS where
both commands succeed, enable-then-disable both return True and log nothing. -/
theorem setEnabled_contract_witness :
    (setEnabled taskOkState osSuccess true).result = Except.ok true ∧
    (setEnabled taskOkState osSuccess false).result = Except.ok true ∧
    (setEnabled taskOkState osSuccess true).logs = [] :=
  (fun T => ⟨T.1 rfl, T.2.1 rfl, T.2.2.2 rfl osSuccess true⟩)
    (setEnabled_contract taskOkState osSuccess osSuccess rfl)

/-- C4 counterexample: an exit status of 0 does not guarantee that `exists`
records a TaskPath and returns True.  When the command exits 0 but its output
lines carry no `TaskPath` key, the subscript `attrs["TaskPath"]` raises
KeyError instead of returning. -/
theorem existsM_exit_zero_can_raise :
    (osExistsNoTaskPath (getInfoCmd taskStBase.name)).returncode = 0 ∧
    existsM taskStBase osExistsNoTaskPath =
      ExistsResult.raised (PyErr.keyError "TaskPath") taskStBase :=
  ⟨rfl, rfl⟩

/-- C4 amended: `Task.exists` parses colon-delimited key:value lines from the
scheduler command's output (the `existsFolderParse` pipeline) and treats a
non-zero exit status as the task not existing.  It returns False exactly when
the exit status is non-zero; on exit status 0 it records the parsed TaskPath
as `folder` and returns True whenever the output parses to a TaskPath entry,
and raises the parse error (UnicodeDecodeError, IndexError or KeyError)
otherwise. -/
theorem existsM_return_contract (st : TaskState) (os : Oracle) :
    ((os (getInfoCmd st.name)).returncode ≠ 0 →
        existsM st os = ExistsResult.ok false { st with folder := none }) ∧
    ((os (getInfoCmd st.name)).returncode = 0 →
        (match existsFolderParse (os (getInfoCmd st.name)).stdout with
         | Except.ok f => existsM st os = ExistsResult.ok true { st with folder := some (String.mk f) }
         | Except.error e => existsM st os = ExistsResult.raised e st)) ∧
    (∀ b st2, existsM st os = ExistsResult.ok b st2 →
        (b = false ↔ (os (getInfoCmd st.name)).returncode ≠ 0)) := by
  refine ⟨?_, ?_, ?_⟩
  · intro h
    simp [existsM, h]
  · intro h
    cases hp : existsFolderParse (os (getInfoCmd st.name)).stdout <;>
      simp [existsM, h, hp]
  · intro b st2 hok
    by_cases h : (os (getInfoCmd st.name)).returncode = 0
    · cases hp : existsFolderParse (os (getInfoCmd st.name)).stdout with
      | error e => simp [existsM, h, hp] at hok
      | ok f =>
        simp [existsM, h, hp] at hok
        simp [hok.1, h]
    · simp [existsM, h] at hok
      simp [hok.1, h]

/-- Witness for C4 amended: against an OS where the query exits 0 with a
well-formed TaskPath line, `exists` returns True and records the stripped
path. -/
theorem existsM_return_contract_witness :
    existsM taskStBase osSuccess =
      ExistsResult.ok true { taskStBase with folder := some "\\" } :=
  (existsM_return_contract taskStBase osSuccess).2.1 rfl

/-- C10 counterexample: a call to `exists` on which the scheduler query exits
with status 0 but the output has a line without a colon raises IndexError and
leaves `folder` at its previous value — neither the parsed TaskPath nor None,
so the claimed two-way folder update does not cover every call. -/
theorem existsM_raise_leaves_folder_unchanged :
    (osExistsNoColon (getInfoCmd taskStOld.name)).returncode = 0 ∧
    existsM taskStOld osExistsNoColon = ExistsResult.raised PyErr.indexError taskStOld ∧
    (existsM taskStOld osExistsNoColon).state.folder = some "OLD" :=
  ⟨rfl, rfl, rfl⟩

/-- C10 amended: every call to `Task.exists` leaves `name`, `task_exists` and
`debug` unchanged and can mutate only `folder`: on a non-zero exit status it
sets `folder` to None; on exit status 0 it sets `folder` to the parsed
TaskPath when the output parses, and otherwise raises with the whole state —
`folder` included — unchanged. -/
theorem existsM_frame (st : TaskState) (os : Oracle) :
    ((existsM st os).state.name = st.name ∧
     (existsM st os).state.task_exists = st.task_exists ∧
     (existsM st os).state.debug = st.debug) ∧
    ((os (getInfoCmd st.name)).returncode ≠ 0 → (existsM st os).state.folder = none) ∧
    ((os (getInfoCmd st.name)).returncode = 0 →
        (match existsFolderParse (os (getInfoCmd st.name)).stdout with
         | Except.ok f => (existsM st os).state.folder = some (String.mk f)
         | Except.error e => existsM st os = ExistsResult.raised e st)) := by
  refine ⟨existsM_preserves_fields st os, ?_, ?_⟩
  · intro h
    simp [existsM, h, ExistsResult.state]
  · intro h
    cases hp : existsFolderParse (os (getInfoCmd st.name)).stdout <;>
      simp [existsM, h, hp, ExistsResult.state]

/-- Witness for C10 amended: a failing query sets `folder` to None and
preserves the other attributes. -/
theorem existsM_frame_witness :
    (existsM taskStOld osMissing).state.folder = none ∧
    (existsM taskStOld osMissing).state.task_exists = taskStOld.task_exists :=
  (fun T => ⟨T.2.1 (by decide), T.1.2.1⟩) (existsM_frame taskStOld osMissing)

/-- C9: a Task constructed without keyword arguments that touch the internal
attributes (any update `kw` preserving `task_exists`, including `id`) has
`task_exists = True` once `__init__` returns normally; `exists` never writes
that attribute and `set_enabled` writes no attribute at all, so every
subsequent `set_enabled` call runs the `if self.task_exists:` branch — the
"task does not exist" branch is unreachable on such an object. -/
theorem taskInit_task_exists_invariant (name : String) (kw : TaskState → TaskState)
    (os : Oracle) (st : TaskState)
    (hkw : ∀ s, (kw s).task_exists = s.task_exists)
    (hinit : taskInit name kw os = InitResult.ok st) :
    st.task_exists = true ∧
    (∀ os2, ((existsM st os2).state).task_exists = true) ∧
    (∀ os2 en, setEnabled st os2 en = setEnabledExisting st os2 en) := by
  have hex : st.task_exists = true := by
    unfold taskInit at hinit
    cases hE : existsM (initState name) os with
    | raised e s => rw [hE] at hinit; simp at hinit
    | ok b st1 =>
      rw [hE] at hinit
      cases b with
      | false => simp at hinit
      | true =>
        simp at hinit
        rw [← hinit, hkw]
  refine ⟨hex, ?_, ?_⟩
  · intro os2
    rw [(existsM_preserves_fields st os2).2.1, hex]
  · intro os2 en
    simp [setEnabled, hex]

/-- Witness for C9: the concrete construction of task "BongoCat" with no
keyword arguments against a succeeding OS query. -/
theorem taskInit_task_exists_invariant_witness :
    taskOkState.task_exists = true ∧
    ((existsM taskOkState osMissing).state).task_exists = true ∧
    setEnabled taskOkState osMissing true = setEnabledExisting taskOkState osMissing true :=
  (fun T => ⟨T.1, T.2.1 osMissing, T.2.2 osMissing true⟩)
    (taskInit_task_exists_invariant "BongoCat" id osSuccess taskOkState (fun _ => rfl) rfl)

/-- C1 failing input: a run in which initialization succeeds and
`engine.start_monitoring()` raises a runtime exception.  The `except` branch
sets a pending `return 1`, but the `finally` block calls `shutdown()`, which
terminates the process with `os._exit(0)` before the return can complete — so
the process exit code is 0, not the 1 the claim states.  (Initialization
errors do exit 1: the `return 1` at line 78 is outside the try statement.) -/
theorem main_runtime_exception_exits_zero :
    (appRun runtimeErrorWorld).bodyEnd = some (BodyEnd.raised { msg := "runtime boom" }) ∧
    (appRun runtimeErrorWorld).pendingReturn = some 1 ∧
    (appRun runtimeErrorWorld).term = ProcTerm.osExit 0 ∧
    exitCode (launch true "1.0" runtimeErrorWorld []).term = 0 := by
  refine ⟨rfl, rfl, rfl, rfl⟩

/-- C5: `shutdown` attempts every applicable step — stop engine, stop tray,
clean up the tkinter root — in order, and the set of attempted steps depends
only on which attributes are set, never on which steps raise (each step's own
`except` clause catches its failure); and every call ends in the unconditional
forced termination `os._exit(0)`, never in a clean return. -/
theorem shutdown_best_effort_forced_exit (c : ShutdownCtx) :
    (shutdown c).2 = ProcTerm.osExit 0 ∧
    ((shutdown c).1.map SEvent.step) = attemptedSteps c.hasEngine c.hasTray c.hasTk := by
  obtain ⟨he, ht, hk, e1, e2, e3⟩ := c
  cases he <;> cases ht <;> cases hk <;> cases e1 <;> cases e2 <;> cases e3 <;>
    exact ⟨rfl, rfl⟩

/-- C6: launching `main` with the `--version` flag prints the version text —
a string containing the configured version number — and terminates with
SystemExit(0), without constructing the application or any component (no
Config Store, Engine or Tray), whatever the collaborators would have done. -/
theorem main_version_flag_no_components (version : String) (w : RunWorld) :
    (mainFun version w ["--version"]).constructed = [] ∧
    (mainFun version w ["--version"]).runOut = none ∧
    (mainFun version w ["--version"]).term = ProcTerm.sysExit 0 ∧
    (∃ pre, (mainFun version w ["--version"]).printed = [pre ++ version]) ∧
    exitCode (launch true version w ["--version"]).term = 0 :=
  ⟨rfl, rfl, rfl, ⟨"Bongo Cat Typing Monitor v", rfl⟩, rfl⟩

/-- C7: a process started without administrative rights relaunches itself
elevated via `pyuac.runAsAdmin` and falls off the end of the script (exit
status 0) without ever invoking `main()` — no application logic runs in the
non-elevated process. -/
theorem launch_nonadmin_relaunches_without_main (version : String) (w : RunWorld)
    (argv : List String) :
    (launch false version w argv).mainInvoked = false ∧
    (launch false version w argv).relaunchedElevated = true ∧
    (launch false version w argv).term = ProcTerm.fallOff ∧
    exitCode (launch false version w argv).term = 0 :=
  ⟨rfl, rfl, rfl, rfl⟩

/-- C8: SIGINT and SIGTERM are bound to the same installed handler,
`signal_handler`; invoking it performs exactly the shutdown sequence
`shutdown` defines, and that is the same sequence (events and termination)
that a normal exit performs through the `finally` block of `run` whenever
initialization succeeded. -/
theorem signals_shutdown_equivalence :
    installedHandlers Sig.sigint = installedHandlers Sig.sigterm ∧
    (∀ c, (runHandlerRef (installedHandlers Sig.sigint) c).events = (shutdown c).1 ∧
          (runHandlerRef (installedHandlers Sig.sigint) c).term = (shutdown c).2) ∧
    (∀ w, (appRun w).initOk = true →
        (appRun w).shutdownEvents =
          (runHandlerRef (installedHandlers Sig.sigterm) (shutdownCtxOf w)).events ∧
        (appRun w).term =
          (runHandlerRef (installedHandlers Sig.sigterm) (shutdownCtxOf w)).term) := by
  refine ⟨rfl, fun c => ⟨rfl, rfl⟩, fun w h => ?_⟩
  by_cases h0 : (initComponents w).1 = false
  · simp [appRun, h0] at h
  · constructor <;> simp [appRun, h0, runHandlerRef]

/-- Witness for C8: a concrete all-succeeding run performs, on normal exit,
the same shutdown sequence the signal handler would perform. -/
theorem signals_shutdown_equivalence_witness :
    (appRun allOkWorld).shutdownEvents =
      (runHandlerRef (installedHandlers Sig.sigterm) (shutdownCtxOf allOkWorld)).events ∧
    (appRun allOkWorld).term =
      (runHandlerRef (installedHandlers Sig.sigterm) (shutdownCtxOf allOkWorld)).term :=
  signals_shutdown_equivalence.2.2 allOkWorld rfl

end BongoCat
